import Mathlib

/-!
Shallow embedding of the MinimIDL TaskManager boundary layer
(`examples/TaskManager/CWrapper/taskmanager_wrapper.cpp` together with the
runtime header `examples/TaskManager/include/minimidl_runtime.hpp`).

Modelling conventions:

* A C handle (`void*`) is a `Nat` address; `0` is the null handle, matching
  the wrapper's `if (!handle)` checks.  Fresh addresses start at `1`.
* The process heap is an association list from addresses to objects.
  `HandleToPtr` is an unchecked `static_cast`, so dereferencing a handle in
  the model looks the address up in the heap and also pattern-matches the
  expected object kind: a handle that is null-allocated, already freed, or
  bound to an object of a different interface gives no object back.
* Boundary functions return `Option` results: `none` models C++ undefined
  behavior (virtual call or delete through a dangling or type-confused
  pointer, dereference of a null argument handle).  The wrapper's
  `catch (std::exception)` blocks never see such faults.
* `g_lastError` is the thread-local error slot; `SetError` overwrites it.
  Success paths of the wrapper do not touch it, and the model reproduces
  exactly that.
* Nullable `const char*` parameters are `Option String`.
-/

namespace TaskManagerModel

/-- Modelled from the spec: the native implementation header `TaskManager.hpp`
is not part of the sources, only the generated wrapper that calls it.  Per the
spec the managed object owns "the interface-specific state owned by the
implementation", and property get/set read and write that state, so the native
`ITask` is a record of its declared properties.  Enum-typed properties are the
underlying integer, as marshalled by the wrapper's `static_cast`. -/
structure TaskObj where
  id : String
  title : String
  description : String
  priority : Int
  status : Int
  due_date : String
  tags : List String
  metadata : List (String × String)
deriving Repr, DecidableEq

/-- Modelled from the spec: the native `IProject` (from the missing
`TaskManager.hpp`) owns its tasks; the model stores the heap addresses of the
task objects the project holds native references to. -/
structure ProjectObj where
  id : String
  name : String
  description : String
  active : Bool
  tasks : List Nat
deriving Repr, DecidableEq

/-- A heap-allocated object reachable from a boundary handle.  `dynStr` is the
wrapper's concrete `DynamicString` (a `std::string` value plus the
`RefCounted` count that starts at 1); `task` and `project` are native objects
whose boundary lifecycle functions (`ITask_Release` etc.) manage them. -/
inductive Obj where
  | dynStr (value : String) (refCount : Int)
  | task (t : TaskObj)
  | project (p : ProjectObj)
deriving Repr, DecidableEq

/-- Address lookup in an association-list heap (first binding wins, matching a
memory where each live address occurs once). -/
def heapLookup : List (Nat × Obj) → Nat → Option Obj
  | [], _ => none
  | (b, o) :: rest, a => if a = b then some o else heapLookup rest a

/-- Overwrite the object stored at an address (in-place mutation through a
valid pointer). -/
def heapUpdate : List (Nat × Obj) → Nat → Obj → List (Nat × Obj)
  | [], _, _ => []
  | (b, o') :: rest, a, o =>
      if b = a then (b, o) :: heapUpdate rest a o
      else (b, o') :: heapUpdate rest a o

/-- Remove an address from the heap (`delete`). -/
def heapRemove : List (Nat × Obj) → Nat → List (Nat × Obj)
  | [], _ => []
  | (b, o') :: rest, a =>
      if b = a then heapRemove rest a else (b, o') :: heapRemove rest a

/-- The boundary-visible process state: the heap of live objects, the set of
already-freed addresses, the next fresh address, and the thread-local
`g_lastError` slot of the calling context. -/
structure State where
  heap : List (Nat × Obj)
  freed : List Nat
  nextAddr : Nat
  lastError : String
deriving Repr, DecidableEq

def State.lookup (s : State) (a : Nat) : Option Obj :=
  heapLookup s.heap a

def State.update (s : State) (a : Nat) (o : Obj) : State :=
  { s with heap := heapUpdate s.heap a o }

def State.free (s : State) (a : Nat) : State :=
  { s with heap := heapRemove s.heap a, freed := a :: s.freed }

def State.alloc (s : State) (o : Obj) : Nat × State :=
  (s.nextAddr,
   { s with heap := (s.nextAddr, o) :: s.heap, nextAddr := s.nextAddr + 1 })

/-- Every allocated address is below `nextAddr`, and addresses start at 1
(the null handle 0 is never issued).  Holds for the empty initial state and is
preserved by every operation; concrete states used below satisfy it by
computation. -/
def State.freshOk (s : State) : Bool :=
  decide (0 < s.nextAddr) && s.heap.all (fun p => decide (p.1 < s.nextAddr))

/-- `SetError`: overwrite the thread-local error slot. -/
def setError (s : State) (msg : String) : State :=
  { s with lastError := msg }

/-- Dereference a handle expected to be an `IDynamicString*`
(`HandleToPtr<IDynamicString>` followed by a virtual call): yields the string
value and reference count, or nothing when the access is undefined. -/
def State.getDynStr (s : State) (a : Nat) : Option (String × Int) :=
  match s.lookup a with
  | some (Obj.dynStr v rc) => some (v, rc)
  | _ => none

/-- Dereference a handle expected to be a native `ITask*`. -/
def State.getTask (s : State) (a : Nat) : Option TaskObj :=
  match s.lookup a with
  | some (Obj.task t) => some t
  | _ => none

/-- Dereference a handle expected to be a native `IProject*`. -/
def State.getProject (s : State) (a : Nat) : Option ProjectObj :=
  match s.lookup a with
  | some (Obj.project p) => some p
  | _ => none

/-! ### Error channel -/

/-- `TaskManager_GetLastError`: read the thread-local slot. -/
def TaskManager_GetLastError (s : State) : String :=
  s.lastError

/-- `TaskManager_ClearError`: reset the thread-local slot to empty. -/
def TaskManager_ClearError (s : State) : State :=
  { s with lastError := "" }

/-! ### IDynamicString boundary functions -/

/-- `IDynamicString_Create`: `new DynamicString(value)`, whose constructor
leaves `m_value` empty when `value` is null; the `RefCounted` base starts the
count at 1.  Returns the new handle. -/
def IDynamicString_Create (s : State) (value : Option String) : Nat × State :=
  s.alloc (Obj.dynStr (value.getD "") 1)

/-- `IDynamicString_AddRef`: null check, then `++m_refCount`. -/
def IDynamicString_AddRef (s : State) (h : Nat) : Option State :=
  if h = 0 then some (setError s "Null handle")
  else
    match s.getDynStr h with
    | some (v, rc) => some (s.update h (Obj.dynStr v (rc + 1)))
    | none => none

/-- `IDynamicString_Release`: null check, then `--m_refCount`, deleting the
object exactly when the decremented count is 0. -/
def IDynamicString_Release (s : State) (h : Nat) : Option State :=
  if h = 0 then some (setError s "Null handle")
  else
    match s.getDynStr h with
    | some (v, rc) =>
        if rc - 1 = 0 then some (s.free h)
        else some (s.update h (Obj.dynStr v (rc - 1)))
    | none => none

/-- `IDynamicString_GetValue`: null check (sentinel `""`), else
`m_value.c_str()` — the content, never a null pointer. -/
def IDynamicString_GetValue (s : State) (h : Nat) : Option (String × State) :=
  if h = 0 then some ("", setError s "Null handle")
  else
    match s.getDynStr h with
    | some (v, _) => some (v, s)
    | none => none

/-- `IDynamicString_GetLength`: null check (sentinel 0), else
`m_value.length()`. -/
def IDynamicString_GetLength (s : State) (h : Nat) : Option (Nat × State) :=
  if h = 0 then some (0, setError s "Null handle")
  else
    match s.getDynStr h with
    | some (v, _) => some (v.length, s)
    | none => none

/-- `IDynamicString_SetValue`: null handle check, then
`m_value = value ? value : ""`. -/
def IDynamicString_SetValue (s : State) (h : Nat) (value : Option String) :
    Option State :=
  if h = 0 then some (setError s "Null handle")
  else
    match s.getDynStr h with
    | some (_, rc) => some (s.update h (Obj.dynStr (value.getD "") rc))
    | none => none

/-! ### ITask boundary functions

`ITask` objects are native (`TaskManager::ITask`).  The wrapper's lifecycle
functions are: `ITask_Release` does an unconditional `delete obj`, and
`ITask_AddRef` is, per its own comment, a no-op placeholder after the null
check. -/

/-- `ITask_Release`: null check, then `delete obj` — unconditional, no
reference count consulted.  Deleting through a dangling or type-confused
pointer is undefined. -/
def ITask_Release (s : State) (h : Nat) : Option State :=
  if h = 0 then some (setError s "Null handle")
  else
    match s.getTask h with
    | some _ => some (s.free h)
    | none => none

/-- `ITask_AddRef`: null check, then nothing (the wrapper comments it as a
no-op placeholder; the handle is not even dereferenced). -/
def ITask_AddRef (s : State) (h : Nat) : State :=
  if h = 0 then setError s "Null handle" else s

/-- `ITask_Getid`: null check (sentinel null handle), else read the native
property and wrap it in a freshly allocated `DynamicString` (count 1). -/
def ITask_Getid (s : State) (h : Nat) : Option (Nat × State) :=
  if h = 0 then some (0, setError s "Null handle")
  else
    match s.getTask h with
    | some t => some (s.alloc (Obj.dynStr t.id 1))
    | none => none

/-- `ITask_Getdescription`: same shape as `ITask_Getid`. -/
def ITask_Getdescription (s : State) (h : Nat) : Option (Nat × State) :=
  if h = 0 then some (0, setError s "Null handle")
  else
    match s.getTask h with
    | some t => some (s.alloc (Obj.dynStr t.description 1))
    | none => none

/-- `ITask_Setdescription`: null handle check, null value check (the property
setters do guard their string argument), then copy the argument string's
content into the native object; the argument handle is neither retained nor
released. -/
def ITask_Setdescription (s : State) (h : Nat) (value : Nat) : Option State :=
  if h = 0 then some (setError s "Null handle")
  else if value = 0 then some (setError s "Null value")
  else
    match s.getTask h, s.getDynStr value with
    | some t, some (v, _) =>
        some (s.update h (Obj.task { t with description := v }))
    | _, _ => none

/-- `ITask_Getpriority`: null check (sentinel `Priority{}`, i.e. 0), else
`static_cast` of the stored native value — returned as-is. -/
def ITask_Getpriority (s : State) (h : Nat) : Option (Int × State) :=
  if h = 0 then some (0, setError s "Null handle")
  else
    match s.getTask h with
    | some t => some (t.priority, s)
    | none => none

/-- `ITask_Setpriority`: null check, then
`obj->set_priority(static_cast<TaskManager::Priority>(value))` — the integer
is applied as-is, with no range validation of any kind. -/
def ITask_Setpriority (s : State) (h : Nat) (value : Int) : Option State :=
  if h = 0 then some (setError s "Null handle")
  else
    match s.getTask h with
    | some t => some (s.update h (Obj.task { t with priority := value }))
    | none => none

/-- `ITask_Getstatus`: same shape as `ITask_Getpriority`. -/
def ITask_Getstatus (s : State) (h : Nat) : Option (Int × State) :=
  if h = 0 then some (0, setError s "Null handle")
  else
    match s.getTask h with
    | some t => some (t.status, s)
    | none => none

/-- `ITask_Setstatus`: same shape as `ITask_Setpriority` — the integer is
applied unvalidated. -/
def ITask_Setstatus (s : State) (h : Nat) (value : Int) : Option State :=
  if h = 0 then some (setError s "Null handle")
  else
    match s.getTask h with
    | some t => some (s.update h (Obj.task { t with status := value }))
    | none => none

/-- Insert into the native metadata dictionary (modelled from the spec's dict
semantics: the key's binding is replaced). -/
def dictInsert (m : List (String × String)) (k v : String) :
    List (String × String) :=
  (k, v) :: m.filter (fun p => p.1 ≠ k)

/-- `ITask_SetMetadata`: null check on the primary handle only; the `key` and
`value` argument handles are dereferenced
(`HandleToPtr<IDynamicString>(key)->GetValue()`) with no null or validity
check, so a null argument handle is a null-pointer dereference. -/
def ITask_SetMetadata (s : State) (h key value : Nat) : Option State :=
  if h = 0 then some (setError s "Null handle")
  else
    match s.getTask h, s.getDynStr key, s.getDynStr value with
    | some t, some (k, _), some (v, _) =>
        some (s.update h (Obj.task { t with metadata := dictInsert t.metadata k v }))
    | _, _, _ => none

/-! ### IProject boundary functions -/

/-- `IProject_Release`: like `ITask_Release`, an unconditional `delete`. -/
def IProject_Release (s : State) (h : Nat) : Option State :=
  if h = 0 then some (setError s "Null handle")
  else
    match s.getProject h with
    | some _ => some (s.free h)
    | none => none

/-- `IProject_AddRef`: null check, then the no-op placeholder. -/
def IProject_AddRef (s : State) (h : Nat) : State :=
  if h = 0 then setError s "Null handle" else s

/-- `IProject_CreateTask`: null check on the primary handle only; `title` and
`description` are dereferenced unchecked.  The native `CreateTask` (modelled
from the spec: the project creates, owns and retains the new task and hands
back a reference to it) allocates the task and records it in the project; the
wrapper then returns `PtrToHandle(result.get())` — the raw address, with no
reference-count increment on behalf of the caller. -/
def IProject_CreateTask (s : State) (h title description : Nat) :
    Option (Nat × State) :=
  if h = 0 then some (0, setError s "Null handle")
  else
    match s.getProject h, s.getDynStr title, s.getDynStr description with
    | some p, some (ti, _), some (de, _) =>
        let t : TaskObj :=
          { id := toString s.nextAddr, title := ti, description := de,
            priority := 0, status := 0, due_date := "", tags := [],
            metadata := [] }
        let (a, s1) := s.alloc (Obj.task t)
        some (a, s1.update h (Obj.project { p with tasks := p.tasks ++ [a] }))
    | _, _, _ => none

/-- Native task lookup by id over the project's stored references (modelled
from the spec: key-based access into the project's owned tasks). -/
def findTask (s : State) (addrs : List Nat) (tid : String) : Option Nat :=
  addrs.find? (fun a =>
    match s.lookup a with
    | some (Obj.task t) => t.id = tid
    | _ => false)

/-- `IProject_GetTask`: null check on the primary handle only; `taskId` is
dereferenced unchecked.  A found task's raw address is returned with no
reference-count increment; a miss returns the null handle (the wrapper's
`result.get()` on an empty native reference). -/
def IProject_GetTask (s : State) (h taskId : Nat) : Option (Nat × State) :=
  if h = 0 then some (0, setError s "Null handle")
  else
    match s.getProject h, s.getDynStr taskId with
    | some p, some (tid, _) =>
        match findTask s p.tasks tid with
        | some a => some (a, s)
        | none => some (0, s)
    | _, _ => none

/-- `IProject_GetTaskCount`: null check (sentinel 0), else the native count
(modelled from the spec: the number of tasks the project owns). -/
def IProject_GetTaskCount (s : State) (h : Nat) : Option (Int × State) :=
  if h = 0 then some (0, setError s "Null handle")
  else
    match s.getProject h with
    | some p => some (Int.ofNat p.tasks.length, s)
    | none => none

/-! ### Heap lemmas -/

theorem heapLookup_update_ne (l : List (Nat × Obj)) (a b : Nat) (o : Obj)
    (hne : b ≠ a) : heapLookup (heapUpdate l a o) b = heapLookup l b := by
  induction l with
  | nil => rfl
  | cons p rest ih =>
      obtain ⟨c, o2⟩ := p
      by_cases hca : c = a
      · subst hca
        have hbc : ¬ b = c := hne
        simp [heapUpdate, heapLookup, hbc, ih]
      · simp [heapUpdate, heapLookup, hca]
        by_cases hbc : b = c
        · simp [hbc]
        · simp [hbc, ih]

theorem heapLookup_update_self (l : List (Nat × Obj)) (a : Nat) (o o2 : Obj)
    (hl : heapLookup l a = some o2) :
    heapLookup (heapUpdate l a o) a = some o := by
  induction l with
  | nil => simp [heapLookup] at hl
  | cons p rest ih =>
      obtain ⟨c, o3⟩ := p
      by_cases hca : c = a
      · subst hca
        simp [heapUpdate, heapLookup]
      · have hac : ¬ a = c := fun h => hca h.symm
        simp [heapLookup, hac] at hl
        simp [heapUpdate, heapLookup, hca, hac, ih hl]

theorem heapLookup_lt (l : List (Nat × Obj)) (n a : Nat) (o : Obj)
    (hall : l.all (fun p => decide (p.1 < n)) = true)
    (hl : heapLookup l a = some o) : a < n := by
  induction l with
  | nil => simp [heapLookup] at hl
  | cons p rest ih =>
      obtain ⟨c, o2⟩ := p
      simp only [List.all_cons, Bool.and_eq_true, decide_eq_true_eq] at hall
      by_cases hac : a = c
      · subst hac; exact hall.1
      · simp [heapLookup, hac] at hl
        exact ih hall.2 hl

/-! ### Concrete sample states used by the counterexample runs -/

/-- The empty initial process state of a calling context. -/
def initState : State :=
  { heap := [], freed := [], nextAddr := 1, lastError := "" }

/-- A concrete native task. -/
def sampleTask : TaskObj :=
  { id := "t1", title := "T", description := "d", priority := 0, status := 0,
    due_date := "", tags := [], metadata := [] }

/-- A state holding a native task at address 1 and a boundary string "hi" at
address 2. -/
def taskState : State :=
  { heap := [(1, Obj.task sampleTask), (2, Obj.dynStr "hi" 1)],
    freed := [], nextAddr := 3, lastError := "" }

/-- A state holding a native project at address 1 and boundary strings for a
title and a description at addresses 2 and 3. -/
def projState : State :=
  { heap := [(1, Obj.project
                  { id := "p", name := "P", description := "", active := true,
                    tasks := [] }),
             (2, Obj.dynStr "title" 1), (3, Obj.dynStr "desc" 1)],
    freed := [], nextAddr := 4, lastError := "" }

/-! ### Claim theorems -/

/-- C1: For `DynamicString` the claimed lifecycle holds (created with count 1;
AddRef then two Releases go 1→2→1→0, with destruction exactly at the second
Release).  For native `ITask` objects it does not: `ITask_AddRef` is a no-op
and `ITask_Release` deletes unconditionally, so the task created by
`IProject_CreateTask` is destroyed by the FIRST Release even after an AddRef,
contradicting the claim that the object stays alive until the second. -/
theorem C1_refcount_lifecycle :
    (let s1 := (IDynamicString_Create initState (some "x")).2
     let s2 := (IDynamicString_AddRef s1 1).getD initState
     let s3 := (IDynamicString_Release s2 1).getD initState
     s1.getDynStr 1 = some ("x", 1)
     ∧ (IDynamicString_AddRef s1 1).isSome
     ∧ s2.getDynStr 1 = some ("x", 2)
     ∧ (IDynamicString_Release s2 1).isSome
     ∧ s3.getDynStr 1 = some ("x", 1)
     ∧ IDynamicString_Release s3 1 = some (s3.free 1)
     ∧ (s3.free 1).lookup 1 = none)
    ∧ (let r := (IProject_CreateTask projState 1 2 3).getD (0, projState)
       (IProject_CreateTask projState 1 2 3).isSome
       ∧ r.1 = 4
       ∧ (r.2.getTask 4).isSome
       ∧ ITask_AddRef r.2 4 = r.2
       ∧ (ITask_Release r.2 4).map (fun s => s.lookup 4) = some none) := by
  decide

/-- C2: double release of the same boundary-string handle is not detected:
the first Release (count 1→0) frees the object without touching the error
slot, and the second Release on the same handle value is a virtual call
through a dangling pointer — undefined behavior (`none` in the model), with
no `DoubleRelease` report through the error channel. -/
theorem C2_double_release_undetected :
    (let s1 := (IDynamicString_Create initState (some "x")).2
     let s2 := (IDynamicString_Release s1 1).getD initState
     (IDynamicString_Release s1 1).isSome
     ∧ s2.lookup 1 = none
     ∧ s2.freed = [1]
     ∧ TaskManager_GetLastError s2 = ""
     ∧ IDynamicString_Release s2 1 = none) := by
  decide

/-- C3: handles carry no type tag — `HandleToPtr` is an unchecked
`static_cast`.  A handle issued for `IDynamicString` passed to `ITask_*`
operations is never rejected with `TypeMismatch`: `ITask_AddRef` silently
accepts it (the placeholder does not even dereference it), and
`ITask_Getid`/`ITask_Release` perform a type-confused virtual call or delete
— undefined behavior, with the error slot left untouched. -/
theorem C3_no_type_tag :
    (let s1 := (IDynamicString_Create initState (some "x")).2
     s1.getDynStr 1 = some ("x", 1)
     ∧ ITask_AddRef s1 1 = s1
     ∧ TaskManager_GetLastError (ITask_AddRef s1 1) = ""
     ∧ ITask_Getid s1 1 = none
     ∧ ITask_Release s1 1 = none) := by
  decide

/-- C4: enum-typed boundary setters perform no range validation: with a valid
task handle, `ITask_Setpriority(h, 5)` and `ITask_Setstatus(h, 99)` apply the
raw integer via `static_cast`, report no error (the slot stays empty, no
`InvalidEnumValue` anywhere), and the out-of-range value even round-trips
back out through the getter. -/
theorem C4_enum_not_validated :
    (let sp := (ITask_Setpriority taskState 1 5).getD taskState
     let st := (ITask_Setstatus taskState 1 99).getD taskState
     (ITask_Setpriority taskState 1 5).isSome
     ∧ sp.getTask 1 = some { sampleTask with priority := 5 }
     ∧ TaskManager_GetLastError sp = ""
     ∧ (ITask_Getpriority sp 1).map Prod.fst = some 5
     ∧ (ITask_Setstatus taskState 1 99).isSome
     ∧ st.getTask 1 = some { sampleTask with status := 99 }
     ∧ TaskManager_GetLastError st = "") := by
  decide

/-- C5 counterexample: after a failed call (`IDynamicString_GetLength` on the
null handle, which sets "Null handle"), a different boundary call that
succeeds (`IDynamicString_GetLength` on the valid handle 2) does NOT clear the
slot: `GetLastError` still returns "Null handle", not the empty string claimed
by the success-clears rule. -/
theorem C5_counterexample :
    let s1 := ((IDynamicString_GetLength taskState 0).getD (0, taskState)).2
    TaskManager_GetLastError s1 = "Null handle"
    ∧ IDynamicString_GetLength s1 2 = some (2, s1)
    ∧ TaskManager_GetLastError ((IDynamicString_GetLength s1 2).getD (0, s1)).2
        ≠ "" := by
  decide

/-- C5 amended: a failing boundary call overwrites the last-error slot, but a
successful call does not write the slot at all — it keeps its previous
contents until the next failure or an explicit `TaskManager_ClearError`. -/
theorem C5_amended_error_slot (s : State) (h : Nat) (v : String) (rc : Int)
    (hh : h ≠ 0) (hv : s.getDynStr h = some (v, rc)) :
    IDynamicString_GetLength s 0 = some (0, setError s "Null handle")
    ∧ TaskManager_GetLastError (setError s "Null handle") = "Null handle"
    ∧ IDynamicString_GetLength s h = some (v.length, s)
    ∧ TaskManager_GetLastError (TaskManager_ClearError s) = "" := by
  refine ⟨?_, rfl, ?_, rfl⟩
  · simp [IDynamicString_GetLength]
  · simp [IDynamicString_GetLength, hh, hv]

/-- C5 witness: the amended behavior evaluated on `taskState` and its valid
string handle 2. -/
theorem C5_amended_error_slot_witness :
    IDynamicString_GetLength taskState 0
        = some (0, setError taskState "Null handle")
    ∧ TaskManager_GetLastError (setError taskState "Null handle")
        = "Null handle"
    ∧ IDynamicString_GetLength taskState 2 = some (2, taskState)
    ∧ TaskManager_GetLastError (TaskManager_ClearError taskState) = "" :=
  C5_amended_error_slot taskState 2 "hi" 1 (by decide) (by decide)

/-- C7: `IProject_CreateTask` returns the raw address of the project-owned
task with no reference-count increment on behalf of the caller (there is no
boundary-visible count on tasks at all), and the caller's single
`ITask_Release` unconditionally deletes the object: afterwards the task is
gone from the heap while the owning project still records the (now dangling)
reference — the caller's Release destroyed the container's internal object,
contrary to the claim. -/
theorem C7_no_addref_on_returned_handle :
    (let r := (IProject_CreateTask projState 1 2 3).getD (0, projState)
     (IProject_CreateTask projState 1 2 3).isSome
     ∧ r.1 = 4
     ∧ (r.2.getProject 1).map ProjectObj.tasks = some [4]
     ∧ (r.2.getTask 4).isSome
     ∧ (ITask_Release r.2 4).map
         (fun s => (s.lookup 4, (s.getProject 1).map ProjectObj.tasks))
         = some (none, some [4])) := by
  decide

/-- C9: boundary methods dereference their string-argument handles without
any validation: `ITask_SetMetadata` with a null key or null value, and
`IProject_CreateTask` / `IProject_GetTask` with a null string argument, are
null-pointer dereferences (undefined behavior, `none` in the model) rather
than reported errors — while the property setters (`ITask_Setdescription`) do
validate and report "Null value". -/
theorem C9_method_args_not_validated :
    ITask_SetMetadata taskState 1 0 2 = none
    ∧ ITask_SetMetadata taskState 1 2 0 = none
    ∧ IProject_CreateTask projState 1 0 3 = none
    ∧ IProject_GetTask projState 1 0 = none
    ∧ ITask_Setdescription taskState 1 0
        = some (setError taskState "Null value") := by
  decide

/-- C8: every modelled boundary accessor and method, called with the null
primary handle, returns its type's zero-value sentinel (null handle, 0, or
empty string) and records exactly "Null handle" — a non-empty message — in
the error slot, touching nothing else (the resulting state is `setError s`,
whose heap is the caller's heap, so no native operation runs). -/
theorem C8_null_primary_handle (s : State) (v : Nat) (x : Int) (a b : Nat) :
    ("Null handle" : String) ≠ ""
    ∧ TaskManager_GetLastError (setError s "Null handle") = "Null handle"
    ∧ (setError s "Null handle").heap = s.heap
    ∧ ITask_Getid s 0 = some (0, setError s "Null handle")
    ∧ ITask_Getdescription s 0 = some (0, setError s "Null handle")
    ∧ ITask_Setdescription s 0 v = some (setError s "Null handle")
    ∧ ITask_Getpriority s 0 = some (0, setError s "Null handle")
    ∧ ITask_Setpriority s 0 x = some (setError s "Null handle")
    ∧ ITask_Getstatus s 0 = some (0, setError s "Null handle")
    ∧ ITask_Setstatus s 0 x = some (setError s "Null handle")
    ∧ ITask_SetMetadata s 0 a b = some (setError s "Null handle")
    ∧ IProject_CreateTask s 0 a b = some (0, setError s "Null handle")
    ∧ IProject_GetTask s 0 a = some (0, setError s "Null handle")
    ∧ IProject_GetTaskCount s 0 = some (0, setError s "Null handle")
    ∧ IDynamicString_GetValue s 0 = some ("", setError s "Null handle")
    ∧ IDynamicString_GetLength s 0 = some (0, setError s "Null handle")
    ∧ IDynamicString_SetValue s 0 (some "x")
        = some (setError s "Null handle") := by
  refine ⟨by decide, rfl, rfl, ?_, ?_, ?_, ?_, ?_, ?_, ?_, ?_, ?_, ?_, ?_,
    ?_, ?_, ?_⟩ <;>
    simp [ITask_Getid, ITask_Getdescription, ITask_Setdescription,
      ITask_Getpriority, ITask_Setpriority, ITask_Getstatus, ITask_Setstatus,
      ITask_SetMetadata, IProject_CreateTask, IProject_GetTask,
      IProject_GetTaskCount, IDynamicString_GetValue, IDynamicString_GetLength,
      IDynamicString_SetValue]

/-- C10: null C-string inputs are treated as the empty string and never fault:
`IDynamicString_Create` with a null `value` yields a valid (non-null) handle
to a string with content `""`, count 1, `GetValue` `""` and `GetLength` 0;
`IDynamicString_SetValue` with a null `value` sets the content to `""`; and
`GetValue` on any valid handle returns the definite content (never a null
pointer — the model's return type has no null). -/
theorem C10_null_cstring_is_empty (s : State) (h : Nat) (v : String)
    (rc : Int) (hfresh : s.freshOk = true) (hh : h ≠ 0)
    (hv : s.getDynStr h = some (v, rc)) :
    (IDynamicString_Create s none).1 ≠ 0
    ∧ (IDynamicString_Create s none).2.lookup (IDynamicString_Create s none).1
        = some (Obj.dynStr "" 1)
    ∧ IDynamicString_GetValue (IDynamicString_Create s none).2
        (IDynamicString_Create s none).1
        = some ("", (IDynamicString_Create s none).2)
    ∧ IDynamicString_GetLength (IDynamicString_Create s none).2
        (IDynamicString_Create s none).1
        = some (0, (IDynamicString_Create s none).2)
    ∧ IDynamicString_SetValue s h none
        = some (s.update h (Obj.dynStr "" rc))
    ∧ IDynamicString_GetValue s h = some (v, s) := by
  simp only [State.freshOk, Bool.and_eq_true, decide_eq_true_eq] at hfresh
  have hpos : 0 < s.nextAddr := hfresh.1
  have hne : s.nextAddr ≠ 0 := Nat.pos_iff_ne_zero.mp hpos
  refine ⟨?_, ?_, ?_, ?_, ?_, ?_⟩
  · simpa [IDynamicString_Create, State.alloc] using hne
  · simp [IDynamicString_Create, State.alloc, State.lookup, heapLookup]
  · simp [IDynamicString_Create, State.alloc, IDynamicString_GetValue, hne,
      State.getDynStr, State.lookup, heapLookup]
  · simp [IDynamicString_Create, State.alloc, IDynamicString_GetLength, hne,
      State.getDynStr, State.lookup, heapLookup]
  · simp [IDynamicString_SetValue, hh, hv]
  · simp [IDynamicString_GetValue, hh, hv]

/-- C10 witness: the theorem evaluated on `taskState` and its valid string
handle 2 (content "hi", count 1). -/
theorem C10_null_cstring_is_empty_witness :
    (IDynamicString_Create taskState none).1 ≠ 0
    ∧ (IDynamicString_Create taskState none).2.lookup
        (IDynamicString_Create taskState none).1 = some (Obj.dynStr "" 1)
    ∧ IDynamicString_GetValue (IDynamicString_Create taskState none).2
        (IDynamicString_Create taskState none).1
        = some ("", (IDynamicString_Create taskState none).2)
    ∧ IDynamicString_GetLength (IDynamicString_Create taskState none).2
        (IDynamicString_Create taskState none).1
        = some (0, (IDynamicString_Create taskState none).2)
    ∧ IDynamicString_SetValue taskState 2 none
        = some (taskState.update 2 (Obj.dynStr "" 1))
    ∧ IDynamicString_GetValue taskState 2 = some ("hi", taskState) :=
  C10_null_cstring_is_empty taskState 2 "hi" 1 (by decide) (by decide)
    (by decide)

/-- C6: a property set followed by the matching get round-trips the string:
`ITask_Setdescription h a` copies the argument string's content into the
native object, leaving the argument string (address, content and reference
count) untouched — it is neither retained nor released; `ITask_Getdescription`
then returns a freshly allocated boundary string with the same content,
reference count 1, at a handle distinct from the argument's; the argument
string is still intact afterwards. -/
theorem C6_string_property_roundtrip (s : State) (h a : Nat) (t : TaskObj)
    (v : String) (rc : Int) (hfresh : s.freshOk = true) (hh : h ≠ 0)
    (ha : a ≠ 0) (ht : s.lookup h = some (Obj.task t))
    (hsv : s.lookup a = some (Obj.dynStr v rc)) :
    ITask_Setdescription s h a
      = some (s.update h (Obj.task { t with description := v }))
    ∧ (s.update h (Obj.task { t with description := v })).lookup a
        = some (Obj.dynStr v rc)
    ∧ ITask_Getdescription
        (s.update h (Obj.task { t with description := v })) h
      = some ((s.update h (Obj.task { t with description := v })).alloc
                (Obj.dynStr v 1))
    ∧ ((s.update h (Obj.task { t with description := v })).alloc
        (Obj.dynStr v 1)).1 ≠ a
    ∧ ((s.update h (Obj.task { t with description := v })).alloc
        (Obj.dynStr v 1)).2.lookup
        ((s.update h (Obj.task { t with description := v })).alloc
          (Obj.dynStr v 1)).1
        = some (Obj.dynStr v 1)
    ∧ ((s.update h (Obj.task { t with description := v })).alloc
        (Obj.dynStr v 1)).2.lookup a = some (Obj.dynStr v rc) := by
  have hah : a ≠ h := by
    intro he
    rw [he, ht] at hsv
    exact Obj.noConfusion (Option.some.injEq _ _ ▸ hsv)
  simp only [State.freshOk, Bool.and_eq_true, decide_eq_true_eq] at hfresh
  have halt : a < s.nextAddr := heapLookup_lt s.heap s.nextAddr a _ hfresh.2 hsv
  have hset : ITask_Setdescription s h a
      = some (s.update h (Obj.task { t with description := v })) := by
    simp [ITask_Setdescription, hh, ha, State.getTask, State.getDynStr, ht, hsv]
  have hlq : (s.update h (Obj.task { t with description := v })).lookup a
      = some (Obj.dynStr v rc) := by
    simpa [State.lookup, State.update, heapLookup_update_ne s.heap h a _ hah]
      using hsv
  have hget : ITask_Getdescription
      (s.update h (Obj.task { t with description := v })) h
      = some ((s.update h (Obj.task { t with description := v })).alloc
                (Obj.dynStr v 1)) := by
    have hlh : (s.update h (Obj.task { t with description := v })).lookup h
        = some (Obj.task { t with description := v }) :=
      heapLookup_update_self s.heap h _ _ ht
    simp [ITask_Getdescription, hh, State.getTask, hlh]
  have hne2 : (s.update h
      (Obj.task { t with description := v })).nextAddr ≠ a := by
    simp only [State.update]
    omega
  refine ⟨hset, hlq, hget, ?_, ?_, ?_⟩
  · simp only [State.alloc]
    omega
  · simp [State.alloc, State.lookup, heapLookup]
  · simp only [State.alloc, State.lookup, heapLookup]
    rw [if_neg (fun he => hne2 he.symm)]
    exact hlq

/-- C6 witness: the round-trip evaluated on `taskState` (task at handle 1,
boundary string "hi" at handle 2). -/
theorem C6_string_property_roundtrip_witness :
    ITask_Setdescription taskState 1 2
      = some (taskState.update 1 (Obj.task { sampleTask with description := "hi" }))
    ∧ (taskState.update 1 (Obj.task { sampleTask with description := "hi" })).lookup 2
        = some (Obj.dynStr "hi" 1)
    ∧ ITask_Getdescription
        (taskState.update 1 (Obj.task { sampleTask with description := "hi" })) 1
      = some ((taskState.update 1
          (Obj.task { sampleTask with description := "hi" })).alloc
            (Obj.dynStr "hi" 1))
    ∧ ((taskState.update 1
        (Obj.task { sampleTask with description := "hi" })).alloc
          (Obj.dynStr "hi" 1)).1 ≠ 2
    ∧ ((taskState.update 1
        (Obj.task { sampleTask with description := "hi" })).alloc
          (Obj.dynStr "hi" 1)).2.lookup
        ((taskState.update 1
          (Obj.task { sampleTask with description := "hi" })).alloc
            (Obj.dynStr "hi" 1)).1
        = some (Obj.dynStr "hi" 1)
    ∧ ((taskState.update 1
        (Obj.task { sampleTask with description := "hi" })).alloc
          (Obj.dynStr "hi" 1)).2.lookup 2 = some (Obj.dynStr "hi" 1) :=
  C6_string_property_roundtrip taskState 1 2 sampleTask "hi" 1 (by decide)
    (by decide) (by decide) (by decide) (by decide)

end TaskManagerModel
